import Mathlib

/-!
Verification of the fake_api_ingestion pipeline
(src/utils/project_classes.py) against its specification.

The Python module is shallowly embedded: configuration mappings become
association lists, pandas DataFrames become a record with a column list
and a row list of string cells, and the external collaborators (HTTP
client, database driver, timestamp parser) become an explicit
environment of functions returning Except values, so that every failure
path of the source is an explicit error value here.
-/

set_option autoImplicit false

namespace FakeApi

/-- Severity levels of the Python logging calls used by the module. -/
inductive LogLevel where
  | debug
  | info
  | critical
  deriving DecidableEq, Repr

/-- One emitted log record: severity and message text. -/
structure LogMsg where
  level : LogLevel
  msg : String
  deriving DecidableEq, Repr

def mkDebug (s : String) : LogMsg := ⟨LogLevel.debug, s⟩
def mkInfo (s : String) : LogMsg := ⟨LogLevel.info, s⟩
def mkCritical (s : String) : LogMsg := ⟨LogLevel.critical, s⟩

/-- A config value after parse_config coercion: Python int or str. -/
inductive ConfigValue where
  | int (n : Int)
  | str (s : String)
  deriving DecidableEq, Repr

/-- One config section: the key/value mapping of that section. -/
abbrev CfgSection := List (String × ConfigValue)

/-- The whole parsed configuration: section name to key/value mapping.
In the source this is config_dict, whose sections are also installed as
attributes of the Truvi object by setattr; since setattr stores a
reference to the same inner dict, attribute access and config access
denote the same object and are represented by one structure here. -/
abbrev Config := List (String × CfgSection)

/-- Attribute / section lookup (first binding wins, as in a dict whose
keys are unique). -/
def getAttr : Config → String → Option CfgSection
  | [], _ => none
  | (s, sec) :: rest, name => if s = name then some sec else getAttr rest name

/-- Key lookup inside one section. -/
def lookupVal : CfgSection → String → Option ConfigValue
  | [], _ => none
  | (k, v) :: rest, key => if k = key then some v else lookupVal rest key

/-- Key lookup through an optional section. -/
def sectionLookup (o : Option CfgSection) (key : String) : Option ConfigValue :=
  match o with
  | none => none
  | some sec => lookupVal sec key

/-- Python str.isdigit for the ASCII strings the config holds:
nonempty and all characters are decimal digits. -/
def pyIsDigit (s : String) : Bool :=
  (!s.isEmpty) && s.all Char.isDigit

/-- Python int() on a digit string: decimal value. -/
def strToNat (s : String) : Nat :=
  s.foldl (fun a c => a * 10 + (c.toNat - 48)) 0

/-- The per-value coercion of parse_config:
int(v) if v.isdigit() else v. -/
def coerceValue (v : String) : ConfigValue :=
  if pyIsDigit v then ConfigValue.int (Int.ofNat (strToNat v)) else ConfigValue.str v

/-- parser.has_section: is the named section present. -/
def hasSection (sections : List (String × List (String × String))) (name : String) : Bool :=
  sections.any (fun p => p.1 == name)

def exceptIsOk {ε α : Type} : Except ε α → Bool
  | Except.ok _ => true
  | Except.error _ => false

/-- parse_config from the source. The ConfigParser result of reading the
file is the input association list of sections; the logger is modelled
by the returned list of emitted log records, and raising ValueError by
the Except error case. On success every value is coerced with
coerceValue; on a missing required section a critical record is logged
and the error is raised. -/
def parse_config (filename required_section : String)
    (sections : List (String × List (String × String))) :
    List LogMsg × Except String Config :=
  if hasSection sections required_section then
    ([], Except.ok (sections.map (fun p => (p.1, p.2.map (fun q => (q.1, coerceValue q.2))))))
  else
    let msg := "Required section " ++ required_section ++ " not found in the " ++
      filename ++ " file"
    ([mkCritical msg], Except.error msg)

/-- Python exception values that can cross the functions modelled here.
dbError stands for the four psycopg2 categories caught by
query_local_db; otherDbError for any other exception escaping the
database layer (not logged by query_local_db); parseError for a
pd.to_datetime failure. -/
inductive PyError where
  | dbError (msg : String)
  | otherDbError (msg : String)
  | httpError (msg : String)
  | indexError (msg : String)
  | valueError (msg : String)
  | keyError (msg : String)
  | typeError (msg : String)
  | attributeError
  | parseError (msg : String)
  deriving DecidableEq, Repr

/-- str(e) of a modelled exception, used in the critical log of the
failure boundary. -/
def errMsg : PyError → String
  | PyError.dbError m => m
  | PyError.otherDbError m => m
  | PyError.httpError m => m
  | PyError.indexError m => m
  | PyError.valueError m => m
  | PyError.keyError m => m
  | PyError.typeError m => m
  | PyError.attributeError => "attribute error"
  | PyError.parseError m => m

/-- A pandas DataFrame of the shapes this module builds: named columns
and rows of string cells (cells stay strings after the modelled
to_datetime, which rewrites the text of the cell). -/
structure DataFrame where
  columns : List String
  rows : List (List String)
  deriving DecidableEq, Repr

/-- pandas df.empty: true when either axis has length zero. -/
def dfEmpty (df : DataFrame) : Bool :=
  df.rows.isEmpty || df.columns.isEmpty

/-- Index of a column name, as used to address cells of that column. -/
def colIdx (df : DataFrame) (key : String) : Option Nat :=
  df.columns.indexOf? key

/-- pd.to_datetime(df[key]): convert every cell of column i with the
environment timestamp parser; the whole column fails if any cell
fails, and the frame is only updated on full success (pandas converts
the series before assigning it back). -/
def convertCol (td : String → Except String String) (i : Nat) (df : DataFrame) :
    Except PyError DataFrame :=
  match df.rows.mapM (fun row => td (row.getD i "")) with
  | Except.error m => Except.error (PyError.parseError m)
  | Except.ok vals =>
    Except.ok { df with rows := (df.rows.zip vals).map (fun p => p.1.set i p.2) }

/-- The for-loop of check_write_df over self.table_values: each key that
names a present column is converted in place; a debug record is logged
after each successful conversion; the first failure aborts the loop
with the frame as mutated so far. Returns the frame, the outcome and
the log records emitted. -/
def convertCols (td : String → Except String String) :
    List String → DataFrame → DataFrame × Except PyError Unit × List LogMsg
  | [], df => (df, Except.ok (), [])
  | k :: ks, df =>
    match colIdx df k with
    | none => convertCols td ks df
    | some i =>
      match convertCol td i df with
      | Except.error e => (df, Except.error e, [])
      | Except.ok df2 =>
        match convertCols td ks df2 with
        | (df3, r, logs) =>
          (df3, r, mkDebug ("Converted " ++ k ++ " to datetime") :: logs)

/-- Result of the validate-and-write stage: the outcome, the frame as
left by the stage (the source mutates df in place), the rows appended
to the Raw Data Table by df.to_sql (empty when nothing was written),
and the log records emitted. -/
structure WriteOut where
  outcome : Except PyError Unit
  df : DataFrame
  appended : List (List String)
  logs : List LogMsg
  deriving Repr

/-- Truvi.check_write_df. Order of the source is kept: the empty check
returns first; then the column-count check raises IndexError; then
self.table_values is read (AttributeError if that section is absent);
then the date columns are converted; finally df.to_sql appends the rows
of the (converted) frame. -/
def check_write_df (td : String → Except String String) (config : Config)
    (df : DataFrame) : WriteOut :=
  if dfEmpty df then
    { outcome := Except.ok (), df := df, appended := [],
      logs := [mkInfo "Empty DataFrame"] }
  else if df.columns.length ≠ 5 then
    { outcome := Except.error (PyError.indexError
        ("df has " ++ toString df.columns.length ++ " columns, expected 5")),
      df := df, appended := [], logs := [] }
  else
    match getAttr config "table_values" with
    | none =>
      { outcome := Except.error PyError.attributeError, df := df,
        appended := [], logs := [] }
    | some tv =>
      match convertCols td (tv.map Prod.fst) df with
      | (df2, Except.error e, logs) =>
        { outcome := Except.error e, df := df2, appended := [], logs := logs }
      | (df2, Except.ok (), logs) =>
        { outcome := Except.ok (), df := df2, appended := df2.rows,
          logs := logs ++ [mkDebug "Dataframe written to database"] }

/-- The pagination metadata of one API response, after the int
coercions of get_api_data. Python integers are unbounded, hence Int. -/
structure PageInfo where
  page : Int
  per_page : Int
  total : Int
  deriving DecidableEq, Repr

/-- Update the value of one key inside a section (the in-place dict
write d[key] = v). -/
def updSec (key : String) (v : ConfigValue) (sec : CfgSection) : CfgSection :=
  List.map (fun q => (q.1, if q.1 = key then v else q.2)) sec

/-- Update one key of one section of the configuration. This is the
shallow-embedding image of mutating the shared section dict: every
alias of the section observes the new value. -/
def setKey (config : Config) (sec key : String) (v : ConfigValue) : Config :=
  List.map (fun p => (p.1, if p.1 = sec then updSec key v p.2 else p.2)) config

/-- The three SQL statements the run issues through query_local_db. -/
inductive Query where
  | truncate
  | selectFinal
  | selectCols
  deriving DecidableEq, Repr

/-- Statement text used in the log records of query_local_db. -/
def queryText : Query → String
  | Query.truncate => "truncate table data.raw_data;"
  | Query.selectFinal => "SELECT * FROM data.final_table;"
  | Query.selectCols => "SELECT column_name FROM information_schema.columns"

/-- The external collaborators of one run: the HTTP endpoint behind
get_api_data (given the query parameter set, what frame and pagination
metadata the call yields, or which exception it raises), the timestamp
parser behind pd.to_datetime, and the database behind query_local_db
and df.to_sql (rows returned, or the exception raised). -/
structure Env where
  api : CfgSection → Except PyError (DataFrame × PageInfo)
  to_datetime : String → Except String String
  db : Query → Except PyError (List (List String))

/-- query_local_db from the source: on success the rows are returned
and a debug record logs the statement; the four caught psycopg2
categories (modelled by PyError.dbError) are logged critical with the
statement text and re-raised unchanged; any other exception propagates
without that log. -/
def query_local_db (env : Env) (q : Query) :
    Except PyError (List (List String)) × List LogMsg :=
  match env.db q with
  | Except.ok rows => (Except.ok rows, [mkDebug (queryText q ++ " executed")])
  | Except.error (PyError.dbError m) =>
    (Except.error (PyError.dbError m),
      [mkCritical (queryText q ++ " failed with " ++ m)])
  | Except.error e => (Except.error e, [])

/-- Truvi.get_api_data: self.api is read first (AttributeError when the
api section is absent), then its base_url key (KeyError when absent);
the HTTP GET, raise_for_status, JSON parsing and int coercion of the
page/per_page/total fields are the environment function. -/
def get_api_data (env : Env) (config : Config) (params : CfgSection) :
    Except PyError (DataFrame × PageInfo) :=
  match getAttr config "api" with
  | none => Except.error PyError.attributeError
  | some apiSec =>
    match lookupVal apiSec "base_url" with
    | none => Except.error (PyError.keyError "base_url")
    | some _ => env.api params

/-- The CSV artifact of post_processing: header names plus rows. -/
abbrev Csv := List String × List (List String)

/-- Truvi.post_processing: read all rows of the final view, raise
ValueError when there are none, read the column names, build the frame
and write final_table.csv. Returns the outcome, the file written (none
on every failure path) and the log records emitted. -/
def post_processing (env : Env) :
    Except PyError Unit × Option Csv × List LogMsg :=
  match query_local_db env Query.selectFinal with
  | (Except.error e, logs) => (Except.error e, none, logs)
  | (Except.ok data, logs) =>
    if data.length = 0 then
      (Except.error (PyError.valueError "No data in view, please check"), none, logs)
    else
      match query_local_db env Query.selectCols with
      | (Except.error e, logs2) => (Except.error e, none, logs ++ logs2)
      | (Except.ok raw_cols, logs2) =>
        match raw_cols.mapM List.head? with
        | none =>
          (Except.error (PyError.indexError "list index out of range"), none,
            logs ++ logs2)
        | some columns =>
          (Except.ok (), some (columns, data),
            logs ++ logs2 ++ [mkInfo "Final table written to csv in final_table.csv"])

/-- The observable state of one run of the orchestrating object: the
configuration (one object, aliased by the attribute namespaces and by
the api_parameters local of Truvi.main), the Raw Data Table contents,
the CSV artifact on disk, and the log stream. -/
structure TruviState where
  config : Config
  raw_data : List (List String)
  csv : Option Csv
  logs : List LogMsg

/-- api_parameters[page] += 1 of Truvi.main. Because api_parameters is
the same dict object as the api_filters config section, the update
lands in the configuration: KeyError when the page key is absent,
TypeError when its value is a str, otherwise the page value is
incremented in place. -/
def incPage (config : Config) : Except PyError Config :=
  match getAttr config "api_filters" with
  | none => Except.error PyError.attributeError
  | some sec =>
    match lookupVal sec "page" with
    | none => Except.error (PyError.keyError "page")
    | some (ConfigValue.str _) =>
      Except.error (PyError.typeError "unsupported operand type")
    | some (ConfigValue.int n) =>
      Except.ok (setKey config "api_filters" "page" (ConfigValue.int (n + 1)))

/-- Outcome of the while-loop body (and of the whole try block): normal
exit, an exception, or fuel exhaustion standing for a run that has not
terminated within the modelled number of iterations. -/
inductive LoopRes where
  | ok
  | err (e : PyError)
  | fuelOut
  deriving DecidableEq, Repr

/-- The while True loop of Truvi.main: fetch a page, log it, validate
and write it, stop when page * per_page >= total, otherwise increment
the page parameter (mutating the api_filters config section through
the alias) and iterate. -/
def loop (env : Env) : Nat → TruviState → TruviState × LoopRes
  | 0, st => (st, LoopRes.fuelOut)
  | fuel + 1, st =>
    match getAttr st.config "api_filters" with
    | none => (st, LoopRes.err PyError.attributeError)
    | some params =>
      match get_api_data env st.config params with
      | Except.error e => (st, LoopRes.err e)
      | Except.ok (df, pi) =>
        let st1 : TruviState :=
          { st with logs := st.logs ++
              [mkInfo ("Fetched page " ++ toString pi.page ++ " with " ++
                toString df.rows.length ++ " results")] }
        let w := check_write_df env.to_datetime st1.config df
        let st2 : TruviState :=
          { st1 with
            raw_data := st1.raw_data ++ w.appended
            logs := st1.logs ++ w.logs }
        match w.outcome with
        | Except.error e => (st2, LoopRes.err e)
        | Except.ok () =>
          if pi.page * pi.per_page ≥ pi.total then
            ({ st2 with logs := st2.logs ++ [mkInfo "All pages fetched"] },
              LoopRes.ok)
          else
            match incPage st2.config with
            | Except.error e => (st2, LoopRes.err e)
            | Except.ok cfg2 => loop env fuel { st2 with config := cfg2 }

/-- Applying post_processing to the run state: the CSV artifact is
replaced when a file was written and kept otherwise. -/
def run_post (env : Env) (st : TruviState) : TruviState × LoopRes :=
  match post_processing env with
  | (r, csvOut, logs) =>
    let st2 : TruviState :=
      { st with
        csv := match csvOut with
          | some c => some c
          | none => st.csv
        logs := st.logs ++ logs }
    match r with
    | Except.ok () => (st2, LoopRes.ok)
    | Except.error e => (st2, LoopRes.err e)

/-- The try block of Truvi.main: truncate the Raw Data Table, run the
page loop, then run post_processing once. The first exception aborts
the remaining steps and is the outcome. -/
def tryBody (env : Env) (fuel : Nat) (st : TruviState) : TruviState × LoopRes :=
  match query_local_db env Query.truncate with
  | (Except.error e, logs) => ({ st with logs := st.logs ++ logs }, LoopRes.err e)
  | (Except.ok _, logs) =>
    let st1 : TruviState := { st with raw_data := [], logs := st.logs ++ logs }
    match loop env fuel st1 with
    | (st2, LoopRes.ok) => run_post env st2
    | (st2, LoopRes.err e) => (st2, LoopRes.err e)
    | (st2, LoopRes.fuelOut) => (st2, LoopRes.fuelOut)

/-- Result of Truvi.main: a normal return with the final state, an
exception escaping the method (possible only before the try block, at
the self.api_filters attribute access), or divergence of the while
loop (fuel exhaustion). -/
inductive MainRes where
  | ret (st : TruviState)
  | raised (e : PyError) (st : TruviState)
  | diverged (st : TruviState)

/-- The state carried by each MainRes outcome. -/
def MainRes.state : MainRes → TruviState
  | MainRes.ret st => st
  | MainRes.raised _ st => st
  | MainRes.diverged st => st

/-- Truvi.main: api_parameters = self.api_filters runs before the try
block, so a missing api_filters section raises out of the method; the
try block is truncate, loop, post_processing; except Exception logs the
failure critical and swallows it; finally always logs the stopped
record when the method terminates. -/
def Truvi.main (env : Env) (fuel : Nat) (st : TruviState) : MainRes :=
  match getAttr st.config "api_filters" with
  | none => MainRes.raised PyError.attributeError st
  | some _ =>
    match tryBody env fuel st with
    | (st1, LoopRes.ok) =>
      MainRes.ret { st1 with logs := st1.logs ++ [mkInfo "Object function stopped"] }
    | (st1, LoopRes.err e) =>
      MainRes.ret { st1 with logs := st1.logs ++
        [mkCritical ("Processing failed with " ++ errMsg e),
          mkInfo "Object function stopped"] }
    | (st1, LoopRes.fuelOut) => MainRes.diverged st1

/-- The run state right after a successful truncate: the Raw Data Table
is empty and the debug record of the statement has been logged. -/
def truncState (st : TruviState) : TruviState :=
  { st with
    raw_data := []
    logs := st.logs ++ [mkDebug (queryText Query.truncate ++ " executed")] }

/-- Two configurations that agree everywhere except possibly at the
page key of the api_filters section: every other section is untouched,
the api_filters section remains present or absent as before, and every
key of api_filters other than page keeps its value. -/
def onlyPageMayDiffer (c c2 : Config) : Prop :=
  (∀ s, s ≠ "api_filters" → getAttr c2 s = getAttr c s) ∧
  (getAttr c2 "api_filters").isSome = (getAttr c "api_filters").isSome ∧
  ∀ k, k ≠ "page" → sectionLookup (getAttr c2 "api_filters") k =
    sectionLookup (getAttr c "api_filters") k

/-! ### Concrete fixtures used by witnesses and counterexamples -/

/-- A five-column one-row batch matching the expected API shape. -/
def dfFive : DataFrame :=
  ⟨["a", "b", "c", "d", "e"], [["1", "2", "3", "4", "5"]]⟩

/-- A demo configuration holding all four sections of the config file,
with the starting page of the api_filters parameter set at 1. -/
def cfgDemo : Config :=
  [("Database", [("host", ConfigValue.str "localhost"),
    ("port", ConfigValue.int 5432)]),
   ("api", [("base_url", ConfigValue.str "http://x")]),
   ("api_filters", [("page", ConfigValue.int 1)]),
   ("table_values", [("created_at", ConfigValue.str "")])]

/-- The run state at entry of Truvi.main for the demo configuration. -/
def stDemo : TruviState := ⟨cfgDemo, [], none, []⟩

/-- The api_filters section of the demo configuration. -/
def paramsDemo : CfgSection := [("page", ConfigValue.int 1)]

/-- An environment whose API answers one terminal page
(page 1, per_page 5, total 3) and whose database always succeeds. -/
def envOnePage : Env :=
  { api := fun _ => Except.ok (dfFive, ⟨1, 5, 3⟩)
    to_datetime := fun s => Except.ok s
    db := fun _ => Except.ok [["x"]] }

/-- An environment whose API serves two pages of one row each
(per_page 1, total 2): page 1 is non-terminal, page 2 terminal. -/
def envTwoPage : Env :=
  { api := fun params =>
      match lookupVal params "page" with
      | some (ConfigValue.int 1) => Except.ok (dfFive, ⟨1, 1, 2⟩)
      | _ => Except.ok (⟨[], []⟩, ⟨2, 1, 2⟩)
    to_datetime := fun s => Except.ok s
    db := fun _ => Except.ok [["x"]] }

/-! ## Claims about parse_config -/

/-- C6: for every well-formed config mapping containing the required
Database section, parse_config returns a mapping of sections to
key/value mappings in which every integer-like string value has been
converted to an integer and every other value is the original,
untouched string. -/
theorem c6_parse_config_coerces_values (filename : String)
    (sections : List (String × List (String × String)))
    (h : hasSection sections "Database" = true) :
    ∃ cfg, (parse_config filename "Database" sections).2 = Except.ok cfg ∧
      ∀ sec kvs, (sec, kvs) ∈ sections →
        ∃ kvs2, (sec, kvs2) ∈ cfg ∧
          ∀ k v, (k, v) ∈ kvs →
            (pyIsDigit v = true →
              (k, ConfigValue.int (Int.ofNat (strToNat v))) ∈ kvs2) ∧
            (pyIsDigit v = false → (k, ConfigValue.str v) ∈ kvs2) := by
  refine ⟨List.map (fun p => (p.1, List.map (fun q => (q.1, coerceValue q.2)) p.2))
    sections, ?_, ?_⟩
  · simp [parse_config, h]
  · intro sec kvs hmem
    refine ⟨List.map (fun q => (q.1, coerceValue q.2)) kvs, ?_, ?_⟩
    · exact List.mem_map_of_mem
        (fun p => (p.1, List.map (fun q => (q.1, coerceValue q.2)) p.2)) hmem
    · intro k v hkv
      have hm := List.mem_map_of_mem (fun q => (q.1, coerceValue q.2)) hkv
      constructor
      · intro hd
        simpa [coerceValue, hd] using hm
      · intro hd
        simpa [coerceValue, hd] using hm

/-- Witness for C6 at a concrete config: a Database section whose port
value is a digit string and whose host value is not. -/
theorem c6_witness :
    ∃ cfg, (parse_config "db.ini" "Database"
        [("Database", [("port", "5432"), ("host", "localhost")])]).2 =
        Except.ok cfg ∧
      ∀ sec kvs, (sec, kvs) ∈
          [("Database", [("port", "5432"), ("host", "localhost")])] →
        ∃ kvs2, (sec, kvs2) ∈ cfg ∧
          ∀ k v, (k, v) ∈ kvs →
            (pyIsDigit v = true →
              (k, ConfigValue.int (Int.ofNat (strToNat v))) ∈ kvs2) ∧
            (pyIsDigit v = false → (k, ConfigValue.str v) ∈ kvs2) :=
  c6_parse_config_coerces_values "db.ini"
    [("Database", [("port", "5432"), ("host", "localhost")])] (by decide)

/-- C7: for every malformed config missing the required section,
parse_config fails with a configuration error and logs the problem at
critical severity before failing. -/
theorem c7_missing_section_logged_and_raised (filename req : String)
    (sections : List (String × List (String × String)))
    (h : hasSection sections req = false) :
    (parse_config filename req sections).1 =
      [mkCritical ("Required section " ++ req ++ " not found in the " ++
        filename ++ " file")] ∧
    (parse_config filename req sections).2 =
      Except.error ("Required section " ++ req ++ " not found in the " ++
        filename ++ " file") := by
  constructor <;> simp [parse_config, h]

/-- Witness for C7: a config holding only an api section, parsed with
Database required. -/
theorem c7_witness :
    (parse_config "db.ini" "Database" [("api", [("base_url", "http://x")])]).1 =
      [mkCritical ("Required section " ++ "Database" ++ " not found in the " ++
        "db.ini" ++ " file")] ∧
    (parse_config "db.ini" "Database" [("api", [("base_url", "http://x")])]).2 =
      Except.error ("Required section " ++ "Database" ++ " not found in the " ++
        "db.ini" ++ " file") :=
  c7_missing_section_logged_and_raised "db.ini" "Database"
    [("api", [("base_url", "http://x")])] (by decide)

/-- C9: parse_config raises if and only if the single required section
is absent; a config holding the required section parses successfully
even when the api, api_filters and table_values sections consumed
later in the run are all missing. -/
theorem c9_parse_config_checks_only_required_section (filename req : String)
    (sections : List (String × List (String × String))) :
    exceptIsOk (parse_config filename req sections).2 = hasSection sections req := by
  cases h : hasSection sections req <;> simp [parse_config, h, exceptIsOk]

/-! ## Claims about check_write_df -/

/-- C4: for every non-empty tabular batch whose column count is not
exactly 5, regardless of its row count, the validation-and-write stage
fails with a structural error (IndexError) and does not append the
batch to the Raw Data Table. -/
theorem c4_wrong_column_count_fails (td : String → Except String String)
    (config : Config) (df : DataFrame)
    (hne : dfEmpty df = false) (hc : df.columns.length ≠ 5) :
    (check_write_df td config df).outcome =
      Except.error (PyError.indexError
        ("df has " ++ toString df.columns.length ++ " columns, expected 5")) ∧
    (check_write_df td config df).appended = [] := by
  constructor <;> simp [check_write_df, hne, hc]

/-- Witness for C4: a one-row batch with 3 columns fails structurally
and appends nothing. -/
theorem c4_witness :
    (check_write_df (fun s => Except.ok s) []
        ⟨["a", "b", "c"], [["1", "2", "3"]]⟩).outcome =
      Except.error (PyError.indexError
        ("df has " ++ toString (["a", "b", "c"] : List String).length ++
          " columns, expected 5")) ∧
    (check_write_df (fun s => Except.ok s) []
        ⟨["a", "b", "c"], [["1", "2", "3"]]⟩).appended = [] :=
  c4_wrong_column_count_fails (fun s => Except.ok s) []
    ⟨["a", "b", "c"], [["1", "2", "3"]]⟩ (by decide) (by decide)

/-- C5: for every empty input batch, the validation-and-write stage
performs zero database writes, raises no error, and returns normally,
logging the empty case at info severity. -/
theorem c5_empty_batch_noop (td : String → Except String String)
    (config : Config) (df : DataFrame) (he : dfEmpty df = true) :
    check_write_df td config df =
      { outcome := Except.ok (), df := df, appended := [],
        logs := [mkInfo "Empty DataFrame"] } := by
  simp [check_write_df, he]

/-- Witness for C5: the empty frame produced by an API page with no
results is a no-op with only the info record. -/
theorem c5_witness :
    check_write_df (fun s => Except.ok s) [] ⟨[], []⟩ =
      { outcome := Except.ok (), df := ⟨[], []⟩, appended := [],
        logs := [mkInfo "Empty DataFrame"] } :=
  c5_empty_batch_noop (fun s => Except.ok s) [] ⟨[], []⟩ (by decide)

/-- C10: when the validation-and-write stage fails with the
wrong-column-count structural error, it fails before any date-column
conversion and before any database write: the whole result shows the
input frame unchanged, no rows appended, and no conversion log
emitted. -/
theorem c10_column_error_leaves_state_unchanged
    (td : String → Except String String) (config : Config) (df : DataFrame)
    (hne : dfEmpty df = false) (hc : df.columns.length ≠ 5) :
    check_write_df td config df =
      { outcome := Except.error (PyError.indexError
          ("df has " ++ toString df.columns.length ++ " columns, expected 5")),
        df := df, appended := [], logs := [] } := by
  simp [check_write_df, hne, hc]

/-- Witness for C10: a batch with 6 columns, one of which is a
date-like configured column, is returned untouched next to the
structural error. -/
theorem c10_witness :
    check_write_df (fun s => Except.ok s)
        [("table_values", [("created_at", ConfigValue.str "")])]
        ⟨["a", "b", "c", "d", "e", "created_at"],
          [["1", "2", "3", "4", "5", "2024-01-01"]]⟩ =
      { outcome := Except.error (PyError.indexError
          ("df has " ++ toString (["a", "b", "c", "d", "e", "created_at"] :
            List String).length ++ " columns, expected 5")),
        df := ⟨["a", "b", "c", "d", "e", "created_at"],
          [["1", "2", "3", "4", "5", "2024-01-01"]]⟩,
        appended := [], logs := [] } :=
  c10_column_error_leaves_state_unchanged (fun s => Except.ok s)
    [("table_values", [("created_at", ConfigValue.str "")])]
    ⟨["a", "b", "c", "d", "e", "created_at"],
      [["1", "2", "3", "4", "5", "2024-01-01"]]⟩ (by decide) (by decide)

/-! ## Claim about post_processing -/

/-- C8: whenever the Final Table/View is empty, post-processing fails
with a domain error (ValueError) and never produces the output file:
the CSV component of the result is none, and the only record logged is
the debug record of the select that found the empty view. -/
theorem c8_empty_final_view_fails_without_csv (env : Env)
    (h : env.db Query.selectFinal = Except.ok []) :
    post_processing env =
      (Except.error (PyError.valueError "No data in view, please check"), none,
        [mkDebug (queryText Query.selectFinal ++ " executed")]) := by
  simp [post_processing, query_local_db, h]

/-- Witness for C8: a database whose final view holds no rows. -/
theorem c8_witness :
    post_processing
        { api := fun _ => Except.error (PyError.httpError "unused")
          to_datetime := fun s => Except.ok s
          db := fun _ => Except.ok [] } =
      (Except.error (PyError.valueError "No data in view, please check"), none,
        [mkDebug (queryText Query.selectFinal ++ " executed")]) :=
  c8_empty_final_view_fails_without_csv
    { api := fun _ => Except.error (PyError.httpError "unused")
      to_datetime := fun s => Except.ok s
      db := fun _ => Except.ok [] } rfl

/-! ## Claim about the failure boundary of Truvi.main -/

/-- C3: for every exception raised anywhere inside the reset, page loop
or post-processing steps, Truvi.main aborts the remaining steps, logs
the error at critical severity and returns without re-raising past the
boundary; and the final stopped record is emitted on every terminating
run, whether it succeeds or fails. The api_filters attribute read
happens before the try block, hence the isSome hypothesis; fuelOut
stands for a run of the unbounded loop that never terminates, on which
no final record can exist. -/
theorem c3_failure_boundary_swallows_and_logs (env : Env) (fuel : Nat)
    (st : TruviState)
    (hattr : (getAttr st.config "api_filters").isSome = true)
    (hterm : (tryBody env fuel st).2 ≠ LoopRes.fuelOut) :
    ∃ st2, Truvi.main env fuel st = MainRes.ret st2 ∧
      st2.logs.getLast? = some (mkInfo "Object function stopped") ∧
      ∀ e, (tryBody env fuel st).2 = LoopRes.err e →
        st2.logs = (tryBody env fuel st).1.logs ++
          [mkCritical ("Processing failed with " ++ errMsg e),
            mkInfo "Object function stopped"] := by
  obtain ⟨params, hp⟩ := Option.isSome_iff_exists.mp hattr
  unfold Truvi.main
  rw [hp]
  rcases hT : tryBody env fuel st with ⟨st1, r⟩
  cases r with
  | ok =>
    refine ⟨_, rfl, by simp, ?_⟩
    intro e he
    simp at he
  | err e0 =>
    refine ⟨_, rfl, by simp, ?_⟩
    intro e he
    have h2 : LoopRes.err e0 = LoopRes.err e := he
    cases h2
    rfl
  | fuelOut =>
    rw [hT] at hterm
    simp at hterm

/-- Witness for C3: a database whose truncate statement fails at once;
the run returns normally with the critical record followed by the
stopped record. -/
theorem c3_witness :
    ∃ st2, Truvi.main
        { api := fun _ => Except.error (PyError.httpError "unused")
          to_datetime := fun s => Except.ok s
          db := fun _ => Except.error (PyError.dbError "connection refused") }
        1 ⟨[("api_filters", [("page", ConfigValue.int 1)])], [], none, []⟩ =
      MainRes.ret st2 ∧
      st2.logs.getLast? = some (mkInfo "Object function stopped") ∧
      ∀ e, (tryBody
          { api := fun _ => Except.error (PyError.httpError "unused")
            to_datetime := fun s => Except.ok s
            db := fun _ => Except.error (PyError.dbError "connection refused") }
          1 ⟨[("api_filters", [("page", ConfigValue.int 1)])], [], none, []⟩).2 =
          LoopRes.err e →
        st2.logs = (tryBody
          { api := fun _ => Except.error (PyError.httpError "unused")
            to_datetime := fun s => Except.ok s
            db := fun _ => Except.error (PyError.dbError "connection refused") }
          1 ⟨[("api_filters", [("page", ConfigValue.int 1)])], [], none, []⟩).1.logs ++
          [mkCritical ("Processing failed with " ++ errMsg e),
            mkInfo "Object function stopped"] :=
  c3_failure_boundary_swallows_and_logs
    { api := fun _ => Except.error (PyError.httpError "unused")
      to_datetime := fun s => Except.ok s
      db := fun _ => Except.error (PyError.dbError "connection refused") }
    1 ⟨[("api_filters", [("page", ConfigValue.int 1)])], [], none, []⟩
    rfl (by decide)

/-! ## Helper lemmas about configuration updates -/

theorem getAttr_setKey (c : Config) (sec k s : String) (v : ConfigValue) :
    getAttr (setKey c sec k v) s =
      if s = sec then (getAttr c s).map (updSec k v) else getAttr c s := by
  induction c with
  | nil => by_cases h : s = sec <;> simp [setKey, getAttr, h]
  | cons p rest ih =>
    rcases p with ⟨s0, kvs⟩
    by_cases h1 : s0 = s
    · subst h1
      by_cases h0 : s0 = sec <;> simp [setKey, getAttr, h0]
    · have step : getAttr (setKey ((s0, kvs) :: rest) sec k v) s =
          getAttr (setKey rest sec k v) s := by
        simp [setKey, getAttr, h1]
      have step2 : getAttr ((s0, kvs) :: rest) s = getAttr rest s := by
        simp [getAttr, h1]
      rw [step, step2, ih]

theorem lookupVal_updSec_ne (s : CfgSection) (k key : String) (v : ConfigValue)
    (h : key ≠ k) : lookupVal (updSec k v s) key = lookupVal s key := by
  induction s with
  | nil => rfl
  | cons q rest ih =>
    rcases q with ⟨k0, v0⟩
    by_cases h1 : k0 = key
    · subst h1
      have h0 : ¬ k0 = k := fun hx => h hx
      simp [updSec, lookupVal, h0]
    · simpa [updSec, lookupVal, h1] using ih

theorem lookupVal_updSec_self (s : CfgSection) (k : String) (v w : ConfigValue)
    (h : lookupVal s k = some w) : lookupVal (updSec k v s) k = some v := by
  induction s with
  | nil => simp [lookupVal] at h
  | cons q rest ih =>
    rcases q with ⟨k0, v0⟩
    by_cases h0 : k0 = k
    · subst h0
      simp [updSec, lookupVal]
    · simp only [lookupVal, if_neg h0] at h
      simpa [updSec, lookupVal, h0] using ih h

/-! ## Claim about the pagination termination predicate -/

/-- C1: for every page result whose metadata satisfies
page * per_page >= total, the ingestion loop stops after processing
that page (fetching it and validating/writing it, after which the try
block invokes post-processing); for every page result where
page * per_page < total, the loop increments the page parameter by one
and performs another fetch (the recursive loop call, whose first step
is the next get_api_data). -/
theorem c1_pagination_termination (env : Env) (fuel : Nat) (st : TruviState)
    (params : CfgSection) (df : DataFrame) (pi : PageInfo)
    (rows : List (List String))
    (htr : env.db Query.truncate = Except.ok rows)
    (hp : getAttr st.config "api_filters" = some params)
    (hapi : get_api_data env st.config params = Except.ok (df, pi))
    (hw : (check_write_df env.to_datetime st.config df).outcome = Except.ok ()) :
    (pi.page * pi.per_page ≥ pi.total →
      ∃ st2, loop env (fuel + 1) (truncState st) = (st2, LoopRes.ok) ∧
        tryBody env (fuel + 1) st = run_post env st2) ∧
    (pi.page * pi.per_page < pi.total →
      ∀ cfg2, incPage st.config = Except.ok cfg2 →
        ∃ stNext, loop env (fuel + 1) (truncState st) = loop env fuel stNext ∧
          stNext.config = cfg2 ∧
          ∀ n, lookupVal params "page" = some (ConfigValue.int n) →
            sectionLookup (getAttr cfg2 "api_filters") "page" =
              some (ConfigValue.int (n + 1))) := by
  constructor
  · intro hterm
    have hloop : loop env (fuel + 1) (truncState st) =
        ({ config := st.config
           raw_data := [] ++ (check_write_df env.to_datetime st.config df).appended
           csv := st.csv
           logs := (st.logs ++ [mkDebug (queryText Query.truncate ++ " executed")] ++
             [mkInfo ("Fetched page " ++ toString pi.page ++ " with " ++
               toString df.rows.length ++ " results")] ++
             (check_write_df env.to_datetime st.config df).logs) ++
             [mkInfo "All pages fetched"] }, LoopRes.ok) := by
      simp only [loop, truncState, hp, hapi, hw]
      rw [if_pos hterm]
    refine ⟨_, hloop, ?_⟩
    simp only [truncState] at hloop
    simp only [tryBody, query_local_db, htr, hloop]
  · intro hcont cfg2 hinc
    have hnterm : ¬ (pi.page * pi.per_page ≥ pi.total) := not_le.mpr hcont
    have hloop : loop env (fuel + 1) (truncState st) =
        loop env fuel
          { config := cfg2
            raw_data := [] ++ (check_write_df env.to_datetime st.config df).appended
            csv := st.csv
            logs := st.logs ++ [mkDebug (queryText Query.truncate ++ " executed")] ++
              [mkInfo ("Fetched page " ++ toString pi.page ++ " with " ++
                toString df.rows.length ++ " results")] ++
              (check_write_df env.to_datetime st.config df).logs } := by
      simp only [loop, truncState, hp, hapi, hw]
      rw [if_neg hnterm]
      simp only [hinc]
    refine ⟨_, hloop, rfl, ?_⟩
    intro n hn
    simp only [incPage, hp, hn] at hinc
    have hc : setKey st.config "api_filters" "page" (ConfigValue.int (n + 1)) =
        cfg2 := Except.ok.inj hinc
    rw [← hc]
    rw [getAttr_setKey, if_pos rfl, hp]
    simp only [Option.map_some', sectionLookup]
    exact lookupVal_updSec_self params "page" (ConfigValue.int (n + 1))
      (ConfigValue.int n) hn

/-- Witness for C1: the one-page environment satisfies the termination
predicate on its first page (1 * 5 >= 3), so the loop exits after
processing it and the try block hands over to post-processing. -/
theorem c1_witness :
    ∃ st2, loop envOnePage 1 (truncState stDemo) = (st2, LoopRes.ok) ∧
      tryBody envOnePage 1 stDemo = run_post envOnePage st2 :=
  (c1_pagination_termination envOnePage 0 stDemo paramsDemo dfFive ⟨1, 5, 3⟩
    [["x"]] rfl (by decide) rfl rfl).1 (by decide)

/-! ## Claim about configuration immutability -/

theorem onlyPageMayDiffer_refl (c : Config) : onlyPageMayDiffer c c :=
  ⟨fun _ _ => rfl, rfl, fun _ _ => rfl⟩

theorem onlyPageMayDiffer_trans {a b c : Config}
    (h1 : onlyPageMayDiffer a b) (h2 : onlyPageMayDiffer b c) :
    onlyPageMayDiffer a c := by
  refine ⟨fun s hs => (h2.1 s hs).trans (h1.1 s hs),
    (h2.2.1).trans h1.2.1,
    fun k hk => (h2.2.2 k hk).trans (h1.2.2 k hk)⟩

theorem incPage_onlyPageMayDiffer {c c2 : Config}
    (h : incPage c = Except.ok c2) : onlyPageMayDiffer c c2 := by
  cases hA : getAttr c "api_filters" with
  | none =>
    simp only [incPage, hA] at h
    exact absurd h (by simp)
  | some sec =>
    simp only [incPage, hA] at h
    cases hL : lookupVal sec "page" with
    | none =>
      simp only [hL] at h
      exact absurd h (by simp)
    | some v =>
      cases v with
      | str s =>
        simp only [hL] at h
        exact absurd h (by simp)
      | int n =>
        simp only [hL] at h
        have hc2 : setKey c "api_filters" "page" (ConfigValue.int (n + 1)) = c2 :=
          Except.ok.inj h
        subst hc2
        refine ⟨?_, ?_, ?_⟩
        · intro s hs
          rw [getAttr_setKey, if_neg hs]
        · rw [getAttr_setKey, if_pos rfl, hA]
          rfl
        · intro k hk
          rw [getAttr_setKey, if_pos rfl, hA]
          simp only [Option.map_some', sectionLookup]
          exact lookupVal_updSec_ne sec "page" k (ConfigValue.int (n + 1)) hk

theorem loop_preserves_config (env : Env) :
    ∀ (fuel : Nat) (st : TruviState),
      onlyPageMayDiffer st.config ((loop env fuel st).1).config := by
  intro fuel
  induction fuel with
  | zero => intro st; exact onlyPageMayDiffer_refl _
  | succ n ih =>
    intro st
    cases hA : getAttr st.config "api_filters" with
    | none =>
      simp only [loop, hA]
      exact onlyPageMayDiffer_refl _
    | some params =>
      cases hApi : get_api_data env st.config params with
      | error e =>
        simp only [loop, hA, hApi]
        exact onlyPageMayDiffer_refl _
      | ok pr =>
        rcases pr with ⟨df, pi⟩
        cases hO : (check_write_df env.to_datetime st.config df).outcome with
        | error e =>
          simp only [loop, hA, hApi, hO]
          exact onlyPageMayDiffer_refl _
        | ok u =>
          cases u
          by_cases hT : pi.page * pi.per_page ≥ pi.total
          · simp only [loop, hA, hApi, hO, if_pos hT]
            exact onlyPageMayDiffer_refl _
          · cases hI : incPage st.config with
            | error e =>
              simp only [loop, hA, hApi, hO, if_neg hT, hI]
              exact onlyPageMayDiffer_refl _
            | ok cfg2 =>
              simp only [loop, hA, hApi, hO, if_neg hT, hI]
              exact onlyPageMayDiffer_trans (incPage_onlyPageMayDiffer hI)
                (ih _)

theorem run_post_config (env : Env) (st : TruviState) :
    ((run_post env st).1).config = st.config := by
  unfold run_post
  rcases post_processing env with ⟨r, csvOut, logs⟩
  cases r <;> rfl

theorem tryBody_preserves_config (env : Env) (fuel : Nat) (st : TruviState) :
    onlyPageMayDiffer st.config ((tryBody env fuel st).1).config := by
  cases hQ : query_local_db env Query.truncate with
  | mk r logs =>
    cases r with
    | error e =>
      simp only [tryBody, hQ]
      exact onlyPageMayDiffer_refl _
    | ok rows =>
      have hst1 := loop_preserves_config env fuel
        { st with raw_data := [], logs := st.logs ++ logs }
      cases hL : loop env fuel { st with raw_data := [], logs := st.logs ++ logs } with
      | mk st2 res =>
        rw [hL] at hst1
        cases res with
        | ok =>
          simp only [tryBody, hQ, hL]
          rw [run_post_config]
          exact hst1
        | err e =>
          simp only [tryBody, hQ, hL]
          exact hst1
        | fuelOut =>
          simp only [tryBody, hQ, hL]
          exact hst1

/-- C2 amended invariant: across one whole run of Truvi.main, every
section of the configuration other than api_filters is unmodified, the
api_filters section is neither created nor removed, and every key of
api_filters other than page keeps its value; only the page parameter
may change (it is incremented by the loop for each non-terminal
page). -/
theorem c2_config_immutable_except_page (env : Env) (fuel : Nat)
    (st : TruviState) :
    onlyPageMayDiffer st.config ((Truvi.main env fuel st).state).config := by
  unfold Truvi.main
  cases hA : getAttr st.config "api_filters" with
  | none => exact onlyPageMayDiffer_refl _
  | some params =>
    have h := tryBody_preserves_config env fuel st
    cases hT : tryBody env fuel st with
    | mk st1 res =>
      rw [hT] at h
      cases res <;> exact h

/-- C2 counterexample: with the two-page environment, the run of
Truvi.main mutates the api_filters section of the configuration (the
page parameter ends at 2 though it started at 1), because
api_parameters aliases the config section dict. The claim that no
operation of the orchestrating object modifies any section of the
configuration is therefore false. -/
theorem c2_counterexample :
    sectionLookup
        (getAttr ((Truvi.main envTwoPage 3 stDemo).state).config "api_filters")
        "page" ≠
      sectionLookup (getAttr stDemo.config "api_filters") "page" := by
  decide

end FakeApi
